import Mathlib

/-!
Verification development for the dataset-workbench filter compiler and
grain-detection engine.

The definitions below are a shallow embedding of the Python source:

* `src/pipelines/reducer.py` — `_find_input_file`, `_build_where_clause`,
  `preview_filtered_query`;
* `src/pipelines/analysis_bootstrap.py` — `step_4_grain_detection`,
  `derive_analysis_blacklist`.

Modelling conventions:

* A filter-rule value is a tagged union of scalars (string / int / bool — the
  shapes the JSON filter payloads produce) and flat lists of scalars, matching
  the `isinstance(val, list)` tests in the source.  Python string formatting
  (`f"%{val}%"`, `str(...)`) is modelled by `Value.pyStr`; repr-escaping of
  quotes inside strings is elided as no claim depends on it.
* Python exceptions raised by `_build_where_clause` are modelled with
  `Except CompileError`; each `raise ValueError(...)` site becomes a
  constructor carrying the message of the source.
* External collaborators (the duckdb engine, pandas, the filesystem listing,
  wall-clock time) are passed in as explicit parameters: `os.listdir` becomes a
  `List String` in listing order, the count-query execution becomes a function
  `String → List Value → Except String Nat`, and the elapsed-milliseconds
  measurement becomes a `Nat` argument threaded to the result.
-/

namespace DatasetWorkbench

/-- A scalar filter value, as produced by the JSON filter payload. -/
inductive Scalar where
  | str (s : String)
  | int (n : Int)
  | bool (b : Bool)
deriving DecidableEq, Repr

/-- A filter-rule value: a scalar, or a flat list of scalars (the shape the
`isinstance(val, list)` tests in `reducer.py` distinguish). -/
inductive Value where
  | scalar (v : Scalar)
  | list (vs : List Scalar)
deriving DecidableEq, Repr

/-- Python `str(...)` on a scalar. -/
def Scalar.pyStr : Scalar → String
  | .str s => s
  | .int n => toString n
  | .bool b => if b then "True" else "False"

/-- Python `repr(...)` on a scalar (quote-escaping inside strings elided). -/
def Scalar.pyRepr : Scalar → String
  | .str s => "'" ++ s ++ "'"
  | .int n => toString n
  | .bool b => if b then "True" else "False"

/-- Python `str(...)` on a value, as used by the f-string `f"%{val}%"`. -/
def Value.pyStr : Value → String
  | .scalar v => v.pyStr
  | .list vs => "[" ++ String.intercalate ", " (vs.map Scalar.pyRepr) ++ "]"

/-- Python `str.lower()` (ASCII case mapping, which is all the operator
strings exercise), written over the character list so it evaluates by kernel
reduction. -/
def pyLower (s : String) : String := ⟨s.data.map Char.toLower⟩

/-- Python `str.upper()` (ASCII case mapping), written over the character
list so it evaluates by kernel reduction. -/
def pyUpper (s : String) : String := ⟨s.data.map Char.toUpper⟩

/-- Python `s.startswith(pre)`, written over the character lists so it
evaluates by kernel reduction. -/
def pyStartsWith (s pre : String) : Bool := pre.data.isPrefixOf s.data

/-- One structured filter rule from the request payload: `f.column`, `f.op`,
`f.value` in `reducer.py`. -/
structure FilterRule where
  column : String
  op : String
  value : Value
deriving DecidableEq, Repr

/-- The compile-stage failures of `_build_where_clause`, one constructor per
`raise ValueError(...)` site.  (The source has no unknown-column check, hence
no such constructor exists.) -/
inductive CompileError where
  | malformedOperand (msg : String)
  | unsupportedOperator (op : String)
deriving DecidableEq, Repr

/-- The comparison operators accepted by the first branch of the loop body of
`_build_where_clause`. -/
def scalarOps : List String := ["=", "!=", ">", ">=", "<", "<="]

/-- The loop body of `_build_where_clause` in `reducer.py` (lines 134-161):
given one rule, produce the clause fragment appended to `clauses` and the
values appended to `params`, or the `ValueError` the iteration raises. -/
def buildClause (f : FilterRule) : Except CompileError (String × List Value) :=
  let col := f.column
  let op := pyLower f.op
  let val := f.value
  if op ∈ scalarOps then
    .ok ("\"" ++ col ++ "\" " ++ op ++ " ?", [val])
  else if op = "contains" then
    .ok ("\"" ++ col ++ "\" LIKE ?", [.scalar (.str ("%" ++ val.pyStr ++ "%"))])
  else if op = "between" then
    match val with
    | .list vs =>
      if vs.length = 2 then
        .ok ("\"" ++ col ++ "\" BETWEEN ? AND ?", vs.map Value.scalar)
      else
        .error (.malformedOperand "between operator requires [start, end]")
    | .scalar _ => .error (.malformedOperand "between operator requires [start, end]")
  else if op = "in" then
    match val with
    | .list vs =>
      if vs.length = 0 then
        .error (.malformedOperand "in operator requires a non-empty list")
      else
        .ok ("\"" ++ col ++ "\" IN (" ++
              String.intercalate "," (List.replicate vs.length "?") ++ ")",
             vs.map Value.scalar)
    | .scalar _ => .error (.malformedOperand "in operator requires a non-empty list")
  else
    .error (.unsupportedOperator op)

/-- The accumulation loop of `_build_where_clause`: the `clauses` and `params`
lists built rule by rule, aborting at the first raised `ValueError`. -/
def compileRules : List FilterRule → Except CompileError (List String × List Value)
  | [] => .ok ([], [])
  | f :: rest =>
    match buildClause f with
    | .error e => .error e
    | .ok (c, ps) =>
      match compileRules rest with
      | .error e => .error e
      | .ok (cs, ps') => .ok (c :: cs, ps ++ ps')

/-- The function `_build_where_clause(filters, logic)` from `reducer.py` lines 130-167:
returns the `WHERE ...` text and the ordered positional parameter list. -/
def _build_where_clause (filters : List FilterRule) (logic : String) :
    Except CompileError (String × List Value) :=
  match compileRules filters with
  | .error e => .error e
  | .ok (clauses, params) =>
    if clauses.isEmpty then
      .ok ("", [])
    else
      let joiner := if pyUpper logic ≠ "OR" then " AND " else " OR "
      .ok ("WHERE " ++ String.intercalate joiner clauses, params)

/-- The function `_find_input_file(dataset_id, input_dir)` from `reducer.py` lines 13-17,
with the `os.listdir(input_dir)` result passed in as `listing` (in
directory-listing order) and `os.path.join` modelled as `dir ++ "/" ++ fname`. -/
def _find_input_file (dataset_id input_dir : String) : List String → Except String String
  | [] => .error ("Dataset " ++ dataset_id ++ " not found")
  | fname :: rest =>
    if pyStartsWith fname dataset_id then
      .ok (input_dir ++ "/" ++ fname)
    else
      _find_input_file dataset_id input_dir rest

/-- The result dictionary returned by `preview_filtered_query`. -/
structure PreviewResult where
  ok : Bool
  matched_rows : Option Nat
  elapsed_ms : Nat
  error : Option String
deriving DecidableEq, Repr

/-- The `str(e)` text of the `ValueError`s raised by `_build_where_clause`, as seen by
the `except Exception as e` handler of `preview_filtered_query`. -/
def CompileError.pyMessage : CompileError → String
  | .malformedOperand msg => msg
  | .unsupportedOperator op => "Unsupported operator: " ++ op

/-- The function `preview_filtered_query` from `reducer.py` lines 170-228.  The external
pieces are parameters: `listing` is `os.listdir(input_dir)`; `engine q ps`
runs `con.execute(q, ps).fetchone()[0]` on the registered view (failing with
the engine's error message); `elapsedMs` is the wall-clock measurement.  The
`try` block fails at the first raising step; the handler turns the exception
message into `{ok := false, error := str(e)}`. -/
def preview_filtered_query (dataset_id input_dir : String) (listing : List String)
    (engine : String → List Value → Except String Nat)
    (filters : List FilterRule) (logic : String) (elapsedMs : Nat) : PreviewResult :=
  let attempt : Except String Nat :=
    match _find_input_file dataset_id input_dir listing with
    | .error e => .error e
    | .ok _path =>
      match _build_where_clause filters logic with
      | .error e => .error e.pyMessage
      | .ok (where_sql, params) =>
        engine ("SELECT COUNT(*) FROM v " ++ where_sql) params
  match attempt with
  | .ok n => ⟨true, some n, elapsedMs, none⟩
  | .error e => ⟨false, none, elapsedMs, some e⟩

/-- The function `step_4_grain_detection(schema_df)` from `analysis_bootstrap.py` lines
73-90, with the schema DataFrame represented by its `column_name` list.  The
three appends of the source are written as list concatenation. -/
def step_4_grain_detection (columns : List String) : List String :=
  (if "order_id" ∈ columns then ["order"] else []) ++
  (if "product_id" ∈ columns then ["item"] else []) ++
  (if "member_id" ∈ columns then ["member"] else [])

/-- The `metric` field of a blacklist finding: a single column name, or the
list the member-grain rule builds by comprehension. -/
inductive Metric where
  | one (s : String)
  | many (ss : List String)
deriving DecidableEq, Repr

/-- One blacklist finding dictionary from `derive_analysis_blacklist`. -/
structure BlacklistFinding where
  grain : String
  metric : Metric
  reason : String
  severity : String
deriving DecidableEq, Repr

/-- The `raw_amount_columns` list of rule three of `derive_analysis_blacklist`. -/
def raw_amount_columns : List String := ["order_total_amount", "item_subtotal"]

/-- The function `derive_analysis_blacklist(grains, schema_df)` from `analysis_bootstrap.py`
lines 196-246, with the schema DataFrame represented by its `column_name`
list; the four appends of the source are written as list concatenation, reason
strings verbatim. -/
def derive_analysis_blacklist (grains : List String) (columns : List String) :
    List BlacklistFinding :=
  (if "item" ∈ grains ∧ "order_total_amount" ∈ columns then
    [⟨"item", .one "order_total_amount", "訂單層金額在商品粒度下會被重複計算", "block"⟩]
   else []) ++
  (if "order" ∈ grains ∧ "item_subtotal" ∈ columns then
    [⟨"order", .one "item_subtotal", "商品層金額在訂單粒度下會失去原本語意", "block"⟩]
   else []) ++
  (if "member" ∈ grains ∧ raw_amount_columns.any (fun col => columns.contains col) then
    [⟨"member", .many (raw_amount_columns.filter (fun col => columns.contains col)),
      "會員層分析需先進行聚合，直接使用原始金額容易造成誤解", "warning"⟩]
   else []) ++
  (if "paid_at" ∈ columns then
    [⟨"all", .one "paid_at", "付款時間欄位存在缺值，進行分析時需搭配訂單狀態使用", "warning"⟩]
   else [])

/-! ### Helper lemmas -/

/-- The accumulation loop produces one clause per rule. -/
lemma compileRules_length {fs : List FilterRule} {cs : List String} {ps : List Value}
    (h : compileRules fs = .ok (cs, ps)) : cs.length = fs.length := by
  induction fs generalizing cs ps with
  | nil => simp [compileRules] at h; simp [h.1]
  | cons f rest ih =>
    simp only [compileRules] at h
    rcases hb : buildClause f with e | cp
    · rw [hb] at h; exact absurd h (by simp)
    · rw [hb] at h
      rcases hr : compileRules rest with e | csps
      · rw [hr] at h; exact absurd h (by simp)
      · rw [hr] at h
        obtain ⟨c, ps1⟩ := cp
        obtain ⟨cs', ps'⟩ := csps
        simp only [Except.ok.injEq, Prod.mk.injEq] at h
        rw [← h.1]
        simp [ih hr]

/-- Compiling a single-rule list wraps the rule's clause in `WHERE `. -/
lemma build_single (f : FilterRule) (logic : String) :
    _build_where_clause [f] logic =
      match buildClause f with
      | .error e => .error e
      | .ok (c, ps) => .ok ("WHERE " ++ c, ps) := by
  rcases hb : buildClause f with e | cp
  · simp [_build_where_clause, compileRules, hb]
  · obtain ⟨c, ps⟩ := cp
    simp only [_build_where_clause, compileRules, hb]
    simp only [List.append_nil, List.isEmpty_cons, Bool.false_eq_true, if_false,
      reduceCtorEq, ite_false]
    rfl

/-! ### C5: empty rule list -/

/-- Claim C5: for the empty rule list and any logic string, compilation
succeeds with the empty (always-true, no-`WHERE`) clause and zero
parameters. -/
theorem empty_rules_always_true (logic : String) :
    _build_where_clause [] logic = .ok ("", []) := rfl

/-! ### C2: no unknown-column check in the source -/

/-- Claim C2 (code_bug evidence): the source `_build_where_clause` takes no
schema at all and succeeds on a rule naming a column absent from any schema,
interpolating the column name into the clause instead of failing with an
unknown-column error. -/
theorem unknown_column_not_checked :
    _build_where_clause [⟨"no_such_column", "=", .scalar (.int 5)⟩] "AND" =
      .ok ("WHERE \"no_such_column\" = ?", [.scalar (.int 5)]) := rfl

/-! ### C10: input-file resolution by filename prefix -/

/-- Claim C10: `_find_input_file` returns the first listed filename that
merely starts with `dataset_id` (joined to the directory), and errors exactly
when no listed filename starts with `dataset_id`. -/
theorem find_input_file_first_match (did dir : String) (listing : List String) :
    (_find_input_file did dir listing =
      match listing.find? (fun f => pyStartsWith f did) with
      | some f => .ok (dir ++ "/" ++ f)
      | none => .error ("Dataset " ++ did ++ " not found")) ∧
    ((∃ msg, _find_input_file did dir listing = .error msg) ↔
      ∀ f ∈ listing, ¬ pyStartsWith f did) := by
  have key : _find_input_file did dir listing =
      match listing.find? (fun f => pyStartsWith f did) with
      | some f => .ok (dir ++ "/" ++ f)
      | none => .error ("Dataset " ++ did ++ " not found") := by
    induction listing with
    | nil => rfl
    | cons f rest ih =>
      by_cases h : pyStartsWith f did
      · simp [_find_input_file, h, List.find?_cons_of_pos]
      · simp only [_find_input_file, if_neg h]
        rw [List.find?_cons_of_neg _ (by simpa using h)]
        exact ih
  refine ⟨key, ?_⟩
  constructor
  · rintro ⟨msg, hmsg⟩ f hf hpre
    rw [key] at hmsg
    rcases hfind : listing.find? (fun f => pyStartsWith f did) with _ | g
    · exact List.find?_eq_none.mp hfind f hf hpre
    · rw [hfind] at hmsg; exact absurd hmsg (by simp)
  · intro hall
    refine ⟨"Dataset " ++ did ++ " not found", ?_⟩
    rw [key]
    have hnone : listing.find? (fun f => pyStartsWith f did) = none :=
      List.find?_eq_none.mpr (fun f hf => by simpa using hall f hf)
    rw [hnone]

/-! ### C9: AND/OR joining -/

/-- Claim C9: whenever the rules all compile and are non-empty, the clause is
the rule clauses joined with ` OR ` exactly when `logic` upper-cases to
`"OR"`, and with ` AND ` for every other logic string — no logic value is
rejected. -/
theorem logic_or_join (filters : List FilterRule) (logic : String)
    (cs : List String) (ps : List Value)
    (hne : filters ≠ []) (hok : compileRules filters = .ok (cs, ps)) :
    _build_where_clause filters logic =
      .ok ("WHERE " ++
            String.intercalate (if pyUpper logic = "OR" then " OR " else " AND ") cs,
           ps) := by
  have hlen : cs.length = filters.length := compileRules_length hok
  have hcs : ¬ cs.isEmpty := by
    cases filters with
    | nil => exact absurd rfl hne
    | cons f rest =>
      cases cs with
      | nil => simp at hlen
      | cons c cs' => simp
  simp only [_build_where_clause, hok]
  rw [if_neg hcs]
  by_cases h : pyUpper logic = "OR"
  · simp [h]
  · simp [h]

/-- Witness for C9 at a concrete rule list and the invalid logic string
`"XOR"`, which silently yields an AND join. -/
theorem logic_or_join_witness :
    _build_where_clause [⟨"amount", "=", .scalar (.int 1)⟩] "XOR" =
      .ok ("WHERE \"amount\" = ?", [.scalar (.int 1)]) := by
  have h := logic_or_join [⟨"amount", "=", .scalar (.int 1)⟩] "XOR"
    ["\"amount\" = ?"] [.scalar (.int 1)] (by simp) (by rfl)
  simpa using h

/-! ### C8: grain detection is monotonic in columns -/

/-- Claim C8: if every column name of `cols` also occurs in `cols'`, every
grain detected for `cols` is detected for `cols'` — adding columns never
removes a detected grain. -/
theorem grain_detection_monotone (cols cols' : List String)
    (hsub : ∀ c, c ∈ cols → c ∈ cols') :
    ∀ g, g ∈ step_4_grain_detection cols → g ∈ step_4_grain_detection cols' := by
  intro g hg
  simp only [step_4_grain_detection, List.mem_append] at hg ⊢
  rcases hg with (h | h) | h
  · by_cases hc : "order_id" ∈ cols
    · rw [if_pos hc] at h
      exact Or.inl (Or.inl (by rw [if_pos (hsub _ hc)]; exact h))
    · rw [if_neg hc] at h; exact absurd h (by simp)
  · by_cases hc : "product_id" ∈ cols
    · rw [if_pos hc] at h
      exact Or.inl (Or.inr (by rw [if_pos (hsub _ hc)]; exact h))
    · rw [if_neg hc] at h; exact absurd h (by simp)
  · by_cases hc : "member_id" ∈ cols
    · rw [if_pos hc] at h
      exact Or.inr (by rw [if_pos (hsub _ hc)]; exact h)
    · rw [if_neg hc] at h; exact absurd h (by simp)

/-- Witness for C8: a grain detected on a one-column schema survives adding a
column. -/
theorem grain_detection_monotone_witness :
    "order" ∈ step_4_grain_detection ["order_id", "product_id"] :=
  grain_detection_monotone ["order_id"] ["order_id", "product_id"]
    (by intro c hc; simp only [List.mem_singleton] at hc; simp [hc])
    "order" (by simp [step_4_grain_detection])

/-! ### C6: Scenario B and its member_id boundary -/

/-- Counterexample to C6 as stated: a schema that includes `order_id`,
`product_id`, `order_total_amount` — and also `member_id` — detects the
`member` grain, so the detected set is not exactly {order, item}. -/
theorem scenario_b_superset_counterexample :
    "member" ∈ step_4_grain_detection
      ["order_id", "product_id", "order_total_amount", "member_id"] ∧
    "member" ∉ (["order", "item"] : List String) := by
  constructor
  · simp [step_4_grain_detection]
  · simp

/-- Claim C6 (amended): for every schema containing `order_id`, `product_id`
and `order_total_amount`, grain detection finds `order` and `item` (and
exactly `["order", "item"]` when `member_id` is absent), and the blacklist
contains the block-severity double-counting finding for `order_total_amount`
at `item` grain. -/
theorem scenario_b_amended (cols : List String)
    (h1 : "order_id" ∈ cols) (h2 : "product_id" ∈ cols)
    (h3 : "order_total_amount" ∈ cols) :
    ("order" ∈ step_4_grain_detection cols ∧ "item" ∈ step_4_grain_detection cols) ∧
    ("member_id" ∉ cols → step_4_grain_detection cols = ["order", "item"]) ∧
    (⟨"item", .one "order_total_amount",
      "訂單層金額在商品粒度下會被重複計算", "block"⟩ : BlacklistFinding)
      ∈ derive_analysis_blacklist (step_4_grain_detection cols) cols := by
  have hord : "order" ∈ step_4_grain_detection cols := by
    simp [step_4_grain_detection, h1]
  have hit : "item" ∈ step_4_grain_detection cols := by
    simp [step_4_grain_detection, h2]
  refine ⟨⟨hord, hit⟩, ?_, ?_⟩
  · intro hm
    simp [step_4_grain_detection, h1, h2, hm]
  · simp only [derive_analysis_blacklist, List.mem_append]
    exact Or.inl (Or.inl (Or.inl (by rw [if_pos ⟨hit, h3⟩]; simp)))

/-- Witness for C6 (amended) at the literal Scenario B schema. -/
theorem scenario_b_amended_witness :
    step_4_grain_detection ["order_id", "product_id", "order_total_amount"] =
      ["order", "item"] ∧
    (⟨"item", .one "order_total_amount",
      "訂單層金額在商品粒度下會被重複計算", "block"⟩ : BlacklistFinding)
      ∈ derive_analysis_blacklist
          (step_4_grain_detection ["order_id", "product_id", "order_total_amount"])
          ["order_id", "product_id", "order_total_amount"] := by
  have h := scenario_b_amended ["order_id", "product_id", "order_total_amount"]
    (by simp) (by simp) (by simp)
  exact ⟨h.2.1 (by simp), h.2.2⟩

/-! ### C7: preview execution contract -/

/-- Claim C7: when the dataset resolves and the rules compile, a successful
count query yields `ok` with the matched row count (zero included, not an
error), and an engine failure yields a non-raising result that carries the
failure as a message string. -/
theorem preview_contract (did dir : String) (listing : List String)
    (engine : String → List Value → Except String Nat)
    (filters : List FilterRule) (logic : String) (el : Nat)
    (path w : String) (ps : List Value) (n : Nat) (msg : String)
    (hfind : _find_input_file did dir listing = .ok path)
    (hbuild : _build_where_clause filters logic = .ok (w, ps)) :
    (engine ("SELECT COUNT(*) FROM v " ++ w) ps = .ok n →
      preview_filtered_query did dir listing engine filters logic el =
        ⟨true, some n, el, none⟩) ∧
    (engine ("SELECT COUNT(*) FROM v " ++ w) ps = .error msg →
      preview_filtered_query did dir listing engine filters logic el =
        ⟨false, none, el, some msg⟩) := by
  constructor
  · intro heng
    simp only [preview_filtered_query, hfind, hbuild, heng]
  · intro heng
    simp only [preview_filtered_query, hfind, hbuild, heng]

/-- Witness for C7: an engine returning zero matches gives `matched_rows = 0`
with `ok`, and a failing engine gives a message-carrying failure result. -/
theorem preview_contract_witness :
    preview_filtered_query "ds" "in" ["ds.csv"] (fun _ _ => .ok 0) [] "AND" 7 =
      ⟨true, some 0, 7, none⟩ ∧
    preview_filtered_query "ds" "in" ["ds.csv"] (fun _ _ => .error "boom") [] "AND" 7 =
      ⟨false, none, 7, some "boom"⟩ :=
  ⟨(preview_contract "ds" "in" ["ds.csv"] (fun _ _ => .ok 0) [] "AND" 7
      "in/ds.csv" "" [] 0 "x" rfl rfl).1 rfl,
   (preview_contract "ds" "in" ["ds.csv"] (fun _ _ => .error "boom") [] "AND" 7
      "in/ds.csv" "" [] 0 "boom" rfl rfl).2 rfl⟩

/-! ### C3: operand-shape checking -/

/-- Counterexample to C3 as stated: a scalar comparison operator accepts a
two-element list value — it is passed through as a single positional
parameter, not rejected as a malformed operand. -/
theorem scalar_op_list_value_accepted :
    _build_where_clause [⟨"amount", "=", .list [.int 1, .int 2]⟩] "AND" =
      .ok ("WHERE \"amount\" = ?", [.list [.int 1, .int 2]]) := rfl

/-- Claim C3 (amended): `between` with a value that is not a two-element list
(wrong-length list or scalar) and `in` with an empty list or a non-list value
fail with the malformed-operand error, while a two-element list value is
accepted by every scalar operator of the claim's set: the six comparison
operators pass the list through as one positional parameter, and `contains`
compiles to the LIKE clause with the list's Python string form wrapped in `%`
as its one parameter. -/
theorem malformed_operand_amended (col logic : String) :
    (∀ vs : List Scalar, vs.length ≠ 2 →
      _build_where_clause [⟨col, "between", .list vs⟩] logic =
        .error (.malformedOperand "between operator requires [start, end]")) ∧
    (∀ s : Scalar,
      _build_where_clause [⟨col, "between", .scalar s⟩] logic =
        .error (.malformedOperand "between operator requires [start, end]")) ∧
    (_build_where_clause [⟨col, "in", .list []⟩] logic =
      .error (.malformedOperand "in operator requires a non-empty list")) ∧
    (∀ s : Scalar,
      _build_where_clause [⟨col, "in", .scalar s⟩] logic =
        .error (.malformedOperand "in operator requires a non-empty list")) ∧
    (∀ op, op ∈ scalarOps → ∀ a b : Scalar,
      _build_where_clause [⟨col, op, .list [a, b]⟩] logic =
        .ok ("WHERE " ++ ("\"" ++ col ++ "\" " ++ op ++ " ?"), [.list [a, b]])) ∧
    (∀ a b : Scalar,
      _build_where_clause [⟨col, "contains", .list [a, b]⟩] logic =
        .ok ("WHERE " ++ ("\"" ++ col ++ "\" LIKE ?"),
             [.scalar (.str ("%" ++ (Value.list [a, b]).pyStr ++ "%"))])) := by
  refine ⟨?_, ?_, ?_, ?_, ?_, ?_⟩
  · intro vs h
    exact match vs, h with
      | [], _ => rfl
      | [a], _ => rfl
      | [a, b], h => absurd rfl h
      | a :: b :: c :: rest, _ => rfl
  · intro s; rfl
  · rfl
  · intro s; rfl
  · intro op hop a b
    fin_cases hop <;> rfl
  · intro a b; rfl

/-- Witness for C3 (amended) at concrete rules, one per conjunct family. -/
theorem malformed_operand_amended_witness :
    _build_where_clause [⟨"qty", "between", .list [.int 1]⟩] "AND" =
      .error (.malformedOperand "between operator requires [start, end]") ∧
    _build_where_clause [⟨"qty", "between", .scalar (.int 1)⟩] "AND" =
      .error (.malformedOperand "between operator requires [start, end]") ∧
    _build_where_clause [⟨"qty", "in", .list []⟩] "AND" =
      .error (.malformedOperand "in operator requires a non-empty list") ∧
    _build_where_clause [⟨"qty", "in", .scalar (.int 3)⟩] "AND" =
      .error (.malformedOperand "in operator requires a non-empty list") ∧
    _build_where_clause [⟨"qty", ">", .list [.int 1, .int 2]⟩] "AND" =
      .ok ("WHERE " ++ ("\"" ++ "qty" ++ "\" " ++ ">" ++ " ?"), [.list [.int 1, .int 2]]) ∧
    _build_where_clause [⟨"qty", "contains", .list [.int 1, .int 2]⟩] "AND" =
      .ok ("WHERE \"qty\" LIKE ?", [.scalar (.str "%[1, 2]%")]) :=
  ⟨(malformed_operand_amended "qty" "AND").1 [.int 1] (by decide),
   (malformed_operand_amended "qty" "AND").2.1 (.int 1),
   (malformed_operand_amended "qty" "AND").2.2.1,
   (malformed_operand_amended "qty" "AND").2.2.2.1 (.int 3),
   (malformed_operand_amended "qty" "AND").2.2.2.2.1 ">" (by decide) (.int 1) (.int 2),
   (malformed_operand_amended "qty" "AND").2.2.2.2.2 (.int 1) (.int 2)⟩

/-! ### C4: unsupported-operator gate -/

/-- The spec's operator grammar, `OperatorTag ∈ {eq, ne, gt, ge, lt, le,
contains, between, in}`, together with the surface spelling each tag has in
the source's operator dispatch. -/
inductive OperatorTag where
  | eq | ne | gt | ge | lt | le | contains | between | inOp
deriving DecidableEq, Repr

/-- The source spelling of each operator tag, as accepted (after lowering) by
`_build_where_clause`. -/
def OperatorTag.toCode : OperatorTag → String
  | .eq => "="
  | .ne => "!="
  | .gt => ">"
  | .ge => ">="
  | .lt => "<"
  | .le => "<="
  | .contains => "contains"
  | .between => "between"
  | .inOp => "in"

/-- Every member of `scalarOps` is the spelling of some operator tag. -/
lemma mem_scalarOps_toCode {s : String} (hs : s ∈ scalarOps) :
    ∃ t : OperatorTag, t.toCode = s := by
  fin_cases hs
  exacts [⟨.eq, rfl⟩, ⟨.ne, rfl⟩, ⟨.gt, rfl⟩, ⟨.ge, rfl⟩, ⟨.lt, rfl⟩, ⟨.le, rfl⟩]

/-- The loop body raises the unsupported-operator error exactly when the
lowered operator is outside the nine-spelling grammar, and the error carries
the lowered operator. -/
lemma buildClause_unsupported (f : FilterRule) (m : String) :
    buildClause f = .error (.unsupportedOperator m) ↔
      (m = pyLower f.op ∧ ∀ t : OperatorTag, pyLower f.op ≠ t.toCode) := by
  simp only [buildClause]
  by_cases hA : pyLower f.op ∈ scalarOps
  · rw [if_pos hA]
    constructor
    · intro h; exact absurd h (by simp)
    · rintro ⟨-, hall⟩
      obtain ⟨t, ht⟩ := mem_scalarOps_toCode hA
      exact absurd ht.symm (hall t)
  · rw [if_neg hA]
    by_cases hB : pyLower f.op = "contains"
    · rw [if_pos hB]
      constructor
      · intro h; exact absurd h (by simp)
      · rintro ⟨-, hall⟩; exact absurd hB (hall .contains)
    · rw [if_neg hB]
      by_cases hC : pyLower f.op = "between"
      · rw [if_pos hC]
        constructor
        · intro h
          rcases hv : f.value with s | vs <;> rw [hv] at h
          · exact absurd h (by simp)
          · split at h
            · split at h <;> simp at h
            · simp at h
        · rintro ⟨-, hall⟩; exact absurd hC (hall .between)
      · rw [if_neg hC]
        by_cases hD : pyLower f.op = "in"
        · rw [if_pos hD]
          constructor
          · intro h
            rcases hv : f.value with s | vs <;> rw [hv] at h
            · exact absurd h (by simp)
            · split at h
              · split at h <;> simp at h
              · simp at h
          · rintro ⟨-, hall⟩; exact absurd hD (hall .inOp)
        · rw [if_neg hD]
          constructor
          · intro h
            simp only [Except.error.injEq, CompileError.unsupportedOperator.injEq] at h
            refine ⟨h.symm, ?_⟩
            intro t heq
            cases t with
            | eq => exact hA (by rw [heq]; decide)
            | ne => exact hA (by rw [heq]; decide)
            | gt => exact hA (by rw [heq]; decide)
            | ge => exact hA (by rw [heq]; decide)
            | lt => exact hA (by rw [heq]; decide)
            | le => exact hA (by rw [heq]; decide)
            | contains => exact hB heq
            | between => exact hC heq
            | inOp => exact hD heq
          · rintro ⟨hm, -⟩; rw [hm]

/-- Claim C4: a rule whose lowered operator is not the spelling of any of the
nine OperatorTag values fails with the unsupported-operator error; a rule
whose lowered operator is the spelling of some tag never fails with that
error. -/
theorem operator_gate (col op : String) (v : Value) (logic : String) :
    ((∀ t : OperatorTag, pyLower op ≠ t.toCode) →
      _build_where_clause [⟨col, op, v⟩] logic =
        .error (.unsupportedOperator (pyLower op))) ∧
    (∀ t : OperatorTag, pyLower op = t.toCode →
      ∀ m, _build_where_clause [⟨col, op, v⟩] logic ≠
        .error (.unsupportedOperator m)) := by
  have hbs := build_single ⟨col, op, v⟩ logic
  constructor
  · intro hall
    have hbc : buildClause ⟨col, op, v⟩ = .error (.unsupportedOperator (pyLower op)) :=
      (buildClause_unsupported _ _).mpr ⟨rfl, hall⟩
    rw [hbs, hbc]
  · intro t ht m hcontra
    rw [hbs] at hcontra
    rcases hb : buildClause ⟨col, op, v⟩ with e | cp
    · rw [hb] at hcontra
      cases e with
      | malformedOperand m' => exact absurd hcontra (by simp)
      | unsupportedOperator m' =>
        have := ((buildClause_unsupported ⟨col, op, v⟩ m').mp hb).2
        exact this t ht
    · obtain ⟨c, ps⟩ := cp
      rw [hb] at hcontra
      exact absurd hcontra (by simp)

/-- Witness for C4: the operator `like` is outside the grammar and is
rejected; the operator `=` is in the grammar and is never rejected as
unsupported. -/
theorem operator_gate_witness :
    _build_where_clause [⟨"c", "like", .scalar (.int 0)⟩] "AND" =
      .error (.unsupportedOperator "like") ∧
    _build_where_clause [⟨"c", "=", .scalar (.int 0)⟩] "AND" ≠
      .error (.unsupportedOperator "=") :=
  ⟨(operator_gate "c" "like" (.scalar (.int 0)) "AND").1
    (by intro t; cases t <;> decide),
   (operator_gate "c" "=" (.scalar (.int 0)) "AND").2 .eq (by decide) "="⟩

/-! ### C1: no user value reaches the clause text -/

/-- The value-free part of a rule: its column, lowered operator, and value
shape (scalar, or list length).  The clause text may depend only on this. -/
def ruleShape (f : FilterRule) : String × String × Option Nat :=
  (f.column, pyLower f.op,
   match f.value with
   | .scalar _ => none
   | .list vs => some vs.length)

/-- The parameter entries one rule contributes: the value itself for the
scalar comparison operators, the `%`-wrapped pattern for `contains`, and the
list elements for `between`/`in`. -/
def ruleParams (f : FilterRule) : List Value :=
  if pyLower f.op ∈ scalarOps then [f.value]
  else if pyLower f.op = "contains" then
    [.scalar (.str ("%" ++ f.value.pyStr ++ "%"))]
  else
    match f.value with
    | .list vs => vs.map Value.scalar
    | .scalar _ => []

/-- A successful `buildClause` yields one of the four clause texts, none of
which embeds the rule value (the `in` text depends only on the list length). -/
lemma buildClause_ok_clause {f : FilterRule} {c : String} {p : List Value}
    (h : buildClause f = .ok (c, p)) :
    (pyLower f.op ∈ scalarOps ∧ c = "\"" ++ f.column ++ "\" " ++ pyLower f.op ++ " ?") ∨
    (pyLower f.op = "contains" ∧ c = "\"" ++ f.column ++ "\" LIKE ?") ∨
    (pyLower f.op = "between" ∧ c = "\"" ++ f.column ++ "\" BETWEEN ? AND ?") ∨
    (pyLower f.op = "in" ∧ ∃ vs : List Scalar, f.value = .list vs ∧
      c = "\"" ++ f.column ++ "\" IN (" ++
            String.intercalate "," (List.replicate vs.length "?") ++ ")") := by
  simp only [buildClause] at h
  by_cases hA : pyLower f.op ∈ scalarOps
  · rw [if_pos hA] at h
    simp only [Except.ok.injEq, Prod.mk.injEq] at h
    exact Or.inl ⟨hA, h.1.symm⟩
  · rw [if_neg hA] at h
    by_cases hB : pyLower f.op = "contains"
    · rw [if_pos hB] at h
      simp only [Except.ok.injEq, Prod.mk.injEq] at h
      exact Or.inr (Or.inl ⟨hB, h.1.symm⟩)
    · rw [if_neg hB] at h
      by_cases hC : pyLower f.op = "between"
      · rw [if_pos hC] at h
        rcases hv : f.value with s | vs <;> rw [hv] at h
        · exact absurd h (by simp)
        · refine Or.inr (Or.inr (Or.inl ⟨hC, ?_⟩))
          split at h
          · split at h
            · simp only [Except.ok.injEq, Prod.mk.injEq] at h
              exact h.1.symm
            · exact absurd h (by simp)
          · exact absurd h (by simp)
      · rw [if_neg hC] at h
        by_cases hD : pyLower f.op = "in"
        · rw [if_pos hD] at h
          rcases hv : f.value with s | vs <;> rw [hv] at h
          · exact absurd h (by simp)
          · refine Or.inr (Or.inr (Or.inr ⟨hD, ?_⟩))
            split at h
            · rename_i vs' heq
              split at h
              · exact absurd h (by simp)
              · simp only [Except.ok.injEq, Prod.mk.injEq] at h
                obtain rfl : vs = vs' := by injection heq
                exact ⟨vs, rfl, h.1.symm⟩
            · exact absurd h (by simp)
        · rw [if_neg hD] at h
          exact absurd h (by simp)

/-- A successful `buildClause` contributes exactly `ruleParams` to the
positional parameter list. -/
lemma buildClause_params {f : FilterRule} {c : String} {p : List Value}
    (h : buildClause f = .ok (c, p)) : p = ruleParams f := by
  simp only [buildClause] at h
  simp only [ruleParams]
  by_cases hA : pyLower f.op ∈ scalarOps
  · rw [if_pos hA] at h
    rw [if_pos hA]
    simp only [Except.ok.injEq, Prod.mk.injEq] at h
    exact h.2.symm
  · rw [if_neg hA] at h
    rw [if_neg hA]
    by_cases hB : pyLower f.op = "contains"
    · rw [if_pos hB] at h
      rw [if_pos hB]
      simp only [Except.ok.injEq, Prod.mk.injEq] at h
      exact h.2.symm
    · rw [if_neg hB] at h
      rw [if_neg hB]
      by_cases hC : pyLower f.op = "between"
      · rw [if_pos hC] at h
        rcases hv : f.value with s | vs <;> rw [hv] at h
        · exact absurd h (by simp)
        · split at h
          · split at h <;> simp_all
          · simp_all
      · rw [if_neg hC] at h
        by_cases hD : pyLower f.op = "in"
        · rw [if_pos hD] at h
          rcases hv : f.value with s | vs <;> rw [hv] at h
          · exact absurd h (by simp)
          · split at h
            · split at h <;> simp_all
            · simp_all
        · rw [if_neg hD] at h
          exact absurd h (by simp)

/-- Rules of equal shape that both compile produce identical clause text. -/
lemma buildClause_clause_shape {f1 f2 : FilterRule} {c1 c2 : String}
    {p1 p2 : List Value} (hs : ruleShape f1 = ruleShape f2)
    (h1 : buildClause f1 = .ok (c1, p1)) (h2 : buildClause f2 = .ok (c2, p2)) :
    c1 = c2 := by
  simp only [ruleShape, Prod.mk.injEq] at hs
  obtain ⟨hcol, hop, hval⟩ := hs
  rcases buildClause_ok_clause h1 with ⟨ha1, hc1⟩ | ⟨ha1, hc1⟩ | ⟨ha1, hc1⟩ |
    ⟨ha1, vs1, hv1, hc1⟩
  · rcases buildClause_ok_clause h2 with ⟨ha2, hc2⟩ | ⟨ha2, hc2⟩ | ⟨ha2, hc2⟩ |
      ⟨ha2, vs2, hv2, hc2⟩
    · rw [hc1, hc2, hcol, hop]
    · rw [hop, ha2] at ha1; exact absurd ha1 (by decide)
    · rw [hop, ha2] at ha1; exact absurd ha1 (by decide)
    · rw [hop, ha2] at ha1; exact absurd ha1 (by decide)
  · rcases buildClause_ok_clause h2 with ⟨ha2, hc2⟩ | ⟨ha2, hc2⟩ | ⟨ha2, hc2⟩ |
      ⟨ha2, vs2, hv2, hc2⟩
    · rw [hop] at ha1; rw [ha1] at ha2; exact absurd ha2 (by decide)
    · rw [hc1, hc2, hcol]
    · rw [hop] at ha1; rw [ha1] at ha2; exact absurd ha2 (by decide)
    · rw [hop] at ha1; rw [ha1] at ha2; exact absurd ha2 (by decide)
  · rcases buildClause_ok_clause h2 with ⟨ha2, hc2⟩ | ⟨ha2, hc2⟩ | ⟨ha2, hc2⟩ |
      ⟨ha2, vs2, hv2, hc2⟩
    · rw [hop] at ha1; rw [ha1] at ha2; exact absurd ha2 (by decide)
    · rw [hop] at ha1; rw [ha1] at ha2; exact absurd ha2 (by decide)
    · rw [hc1, hc2, hcol]
    · rw [hop] at ha1; rw [ha1] at ha2; exact absurd ha2 (by decide)
  · rcases buildClause_ok_clause h2 with ⟨ha2, hc2⟩ | ⟨ha2, hc2⟩ | ⟨ha2, hc2⟩ |
      ⟨ha2, vs2, hv2, hc2⟩
    · rw [hop] at ha1; rw [ha1] at ha2; exact absurd ha2 (by decide)
    · rw [hop] at ha1; rw [ha1] at ha2; exact absurd ha2 (by decide)
    · rw [hop] at ha1; rw [ha1] at ha2; exact absurd ha2 (by decide)
    · rw [hv1, hv2] at hval
      simp only [Option.some.injEq] at hval
      rw [hc1, hc2, hcol, hval]

/-- The parameter list of a compiled rule set is the rule-by-rule
concatenation of each rule's `ruleParams`. -/
lemma compileRules_params : ∀ {fs : List FilterRule} {cs : List String}
    {ps : List Value}, compileRules fs = .ok (cs, ps) → ps = fs.flatMap ruleParams := by
  intro fs
  induction fs with
  | nil =>
    intro cs ps h
    simp only [compileRules, Except.ok.injEq, Prod.mk.injEq] at h
    simp [← h.2]
  | cons f rest ih =>
    intro cs ps h
    simp only [compileRules] at h
    rcases hb : buildClause f with e | ⟨c, p⟩ <;> rw [hb] at h
    · exact absurd h (by simp)
    · rcases hr : compileRules rest with e | ⟨cs', ps'⟩ <;> rw [hr] at h
      · exact absurd h (by simp)
      · simp only [Except.ok.injEq, Prod.mk.injEq] at h
        rw [← h.2, buildClause_params hb, ih hr]
        simp

/-- Shape-equal rule lists that both compile produce identical clause lists. -/
lemma compileRules_clauses_shape : ∀ {fs1 fs2 : List FilterRule}
    {cs1 cs2 : List String} {ps1 ps2 : List Value},
    fs1.map ruleShape = fs2.map ruleShape →
    compileRules fs1 = .ok (cs1, ps1) → compileRules fs2 = .ok (cs2, ps2) →
    cs1 = cs2 := by
  intro fs1
  induction fs1 with
  | nil =>
    intro fs2 cs1 cs2 ps1 ps2 hs h1 h2
    cases fs2 with
    | nil =>
      simp only [compileRules, Except.ok.injEq, Prod.mk.injEq] at h1 h2
      rw [← h1.1, ← h2.1]
    | cons g gs => simp at hs
  | cons f fs ih =>
    intro fs2 cs1 cs2 ps1 ps2 hs h1 h2
    cases fs2 with
    | nil => simp at hs
    | cons g gs =>
      simp only [List.map_cons, List.cons.injEq] at hs
      obtain ⟨hfg, hrest⟩ := hs
      simp only [compileRules] at h1 h2
      rcases hb1 : buildClause f with e | ⟨c1, p1⟩ <;> rw [hb1] at h1
      · exact absurd h1 (by simp)
      rcases hr1 : compileRules fs with e | ⟨cs1', ps1'⟩ <;> rw [hr1] at h1
      · exact absurd h1 (by simp)
      rcases hb2 : buildClause g with e | ⟨c2, p2⟩ <;> rw [hb2] at h2
      · exact absurd h2 (by simp)
      rcases hr2 : compileRules gs with e | ⟨cs2', ps2'⟩ <;> rw [hr2] at h2
      · exact absurd h2 (by simp)
      simp only [Except.ok.injEq, Prod.mk.injEq] at h1 h2
      rw [← h1.1, ← h2.1, buildClause_clause_shape hfg hb1 hb2, ih hrest hr1 hr2]

/-- Claim C1: the compiled clause text depends only on the value-free shapes
of the rules — two rule lists of equal shape yield the same clause text under
any values — and every rule value surfaces solely as entries of the ordered
positional parameter list. -/
theorem clause_template_value_independent (fs1 fs2 : List FilterRule)
    (logic : String) (t1 t2 : String) (p1 p2 : List Value)
    (hs : fs1.map ruleShape = fs2.map ruleShape)
    (h1 : _build_where_clause fs1 logic = .ok (t1, p1))
    (h2 : _build_where_clause fs2 logic = .ok (t2, p2)) :
    t1 = t2 ∧ p1 = fs1.flatMap ruleParams := by
  rcases hc1 : compileRules fs1 with e | ⟨cs1, ps1⟩ <;>
    simp only [_build_where_clause, hc1] at h1
  · exact absurd h1 (by simp)
  rcases hc2 : compileRules fs2 with e | ⟨cs2, ps2⟩ <;>
    simp only [_build_where_clause, hc2] at h2
  · exact absurd h2 (by simp)
  have hcs : cs1 = cs2 := compileRules_clauses_shape hs hc1 hc2
  have hps : ps1 = fs1.flatMap ruleParams := compileRules_params hc1
  have hlen := compileRules_length hc1
  by_cases he : cs1.isEmpty
  · rw [if_pos he] at h1
    rw [← hcs] at h2
    rw [if_pos he] at h2
    simp only [Except.ok.injEq, Prod.mk.injEq] at h1 h2
    have hfs : fs1 = [] := by
      cases cs1 with
      | nil => exact List.length_eq_zero.mp (by simpa using hlen.symm)
      | cons c cs => simp at he
    refine ⟨by rw [← h1.1, ← h2.1], ?_⟩
    rw [hfs, ← h1.2]
    simp
  · rw [if_neg he] at h1
    rw [← hcs] at h2
    rw [if_neg he] at h2
    simp only [Except.ok.injEq, Prod.mk.injEq] at h1 h2
    exact ⟨by rw [← h1.1, ← h2.1], by rw [← h1.2, hps]⟩

/-- Witness for C1: two rule lists differing only in their values compile to
the same clause text, and the parameter list is the rule-value list. -/
theorem clause_template_value_independent_witness :
    ("WHERE \"amount\" = ?" : String) = "WHERE \"amount\" = ?" ∧
    [Value.scalar (.int 100)] =
      [(⟨"amount", "=", .scalar (.int 100)⟩ : FilterRule)].flatMap ruleParams :=
  clause_template_value_independent
    [⟨"amount", "=", .scalar (.int 100)⟩] [⟨"amount", "=", .scalar (.int 999)⟩]
    "AND" "WHERE \"amount\" = ?" "WHERE \"amount\" = ?"
    [Value.scalar (.int 100)] [Value.scalar (.int 999)] rfl rfl rfl

end DatasetWorkbench
